import Mathlib

/-!
Verification of the assignment-and-scheduling core of the Home Hospital
Scheduling System backend (`src/services/timeSlotOptimizer.js`,
`src/services/geoUtils.js`, `src/routes/assignments.js`).

JavaScript strings are modelled as `List Char` (written via `String.data`
on literals) so that every operation is structurally recursive and
kernel-computable.  JavaScript numbers appearing in time/capacity logic are
modelled as `Nat`/`Int`; the geographic functions (haversine and friends)
are modelled over `ℝ`.  The external data store (supabase) is modelled as
an explicit record of tables, with store-write failures injected through
explicit fault flags; store reads are modelled as infallible except for
`.single()` queries, which fail exactly when the filtered row set does not
have exactly one element, mirroring PostgREST semantics.
-/

/-- JavaScript strings, modelled as their character lists. -/
abbrev Str := List Char

/-- `String.prototype.toLowerCase`, restricted to ASCII (all strings in the
tables and claims are ASCII). -/
def toLowerStr (s : Str) : Str := s.map Char.toLower

/-- `haystack.includes(needle)` — substring test. -/
def jsIncludes (haystack needle : Str) : Bool := decide (needle <:+: haystack)

/-- JavaScript `split` with a single-character separator. -/
def splitOnChar (sep : Char) : Str → List Str
  | [] => [[]]
  | c :: rest =>
    let r := splitOnChar sep rest
    if c = sep then [] :: r
    else
      match r with
      | h :: t => (c :: h) :: t
      | [] => [[c]]

/-- Parse a nonempty all-digit string to a `Nat` (`Number(...)` on the happy
path; non-numeric strings, which `Number` maps to `NaN`, give `none`). -/
def parseDigits (s : Str) : Option Nat :=
  if s ≠ [] ∧ s.all (·.isDigit) then
    some (s.foldl (fun a c => a * 10 + (c.toNat - 48)) 0)
  else none

/-- `Number(part)` as used on pieces of a time string: empty string is 0. -/
def jsNum (s : Str) : Nat := (parseDigits s).getD 0

/-- Decimal digit character. -/
def digitChar (n : Nat) : Char := Char.ofNat (48 + n)

/-- Fuel-indexed decimal printer (fuel `n + 1` always suffices). -/
def natToCharsAux : Nat → Nat → Str
  | 0, _ => []
  | fuel + 1, n =>
    if n < 10 then [digitChar n]
    else natToCharsAux fuel (n / 10) ++ [digitChar (n % 10)]

/-- `n.toString()` for a natural number. -/
def natToChars (n : Nat) : Str := natToCharsAux (n + 1) n

/-- `s.padStart(2, '0')`. -/
def padStart2 (s : Str) : Str := List.replicate (2 - s.length) '0' ++ s

/-- JavaScript `x || d` for an optional number: `undefined` and `0` are both
falsy, so a stored 0 falls through to the default. -/
def jsOr0 (x : Option Int) (d : Int) : Int :=
  match x with
  | some v => if v = 0 then d else v
  | none => d

/-- Association-list lookup, modelling `obj[key]` on the constant tables. -/
def jsLookup {α : Type} (table : List (Str × α)) (key : Str) : Option α :=
  (table.find? (fun e => e.1 == key)).map (·.2)

/-- JavaScript string falsiness for an optional string: `null`/`undefined`
and the empty string are falsy. -/
def jsStrFalsy (s : Option Str) : Bool :=
  match s with
  | none => true
  | some t => t.isEmpty

/-- `CARE_SPECIALTY_MAP` from `timeSlotOptimizer.js`. -/
def CARE_SPECIALTY_MAP : List (Str × List Str) :=
  [ ("wound dressing".data, ["Wound Care".data, "Wound Care Specialist".data, "Post-operative Care".data, "Nursing Care".data]),
    ("wound care".data, ["Wound Care".data, "Wound Care Specialist".data, "Post-operative Care".data, "Nursing Care".data]),
    ("post-operative care".data, ["Post-operative Care".data, "Wound Care".data, "Nursing Care".data, "Acute Care".data]),
    ("iv therapy".data, ["IV Therapy Specialist".data, "Nursing Care".data, "Acute Care".data]),
    ("medication administration".data, ["Medication Administration".data, "Medication Management".data, "Nursing Care".data]),
    ("palliative care".data, ["Palliative Care".data, "Elderly Care".data, "Nursing Care".data]),
    ("respiratory care".data, ["Respiratory Care".data, "Pulmonology".data, "Nursing Care".data]),
    ("diabetic care".data, ["Diabetic Care".data, "Chronic Disease Management".data, "Endocrinology".data]),
    ("elderly care".data, ["Elderly Care".data, "Home Health Aide".data, "Nursing Care".data, "Geriatric Care".data]),
    ("home health aide".data, ["Home Health Aide".data, "Nursing Care".data, "Elderly Care".data]),
    ("nursing care".data, ["Nursing Care".data, "Home Health Aide".data, "Medication Administration".data]),
    ("physical therapy".data, ["Physical Therapy".data, "Rehabilitation".data, "Occupational Therapy".data]),
    ("chronic disease management".data, ["Chronic Disease Management".data, "Nursing Care".data]),
    ("cardiac care".data, ["Cardiac Care".data, "Cardiology".data, "Cardiovascular Assessment".data]),
    ("general checkup".data, ["Home Health Aide".data, "Nursing Care".data, "General Practice".data]) ]

/-- `CARE_DURATION` from `timeSlotOptimizer.js` (minutes by care type). -/
def CARE_DURATION : List (Str × Int) :=
  [ ("Wound Dressing".data, 45),
    ("Wound Care Specialist".data, 45),
    ("Post-operative Care".data, 60),
    ("IV Therapy Specialist".data, 45),
    ("Medication Administration".data, 30),
    ("Palliative Care".data, 60),
    ("Respiratory Care".data, 45),
    ("Diabetic Care".data, 40),
    ("Elderly Care".data, 50),
    ("Home Health Aide".data, 45),
    ("Nursing Care".data, 50),
    ("Physical Therapy".data, 60),
    ("Chronic Disease Management".data, 45),
    ("Home Visit - General Checkup".data, 30),
    ("Cardiac Care".data, 45),
    ("default".data, 45) ]

/-- `TRAVEL_TIME` from `timeSlotOptimizer.js` — the zone fallback table used
by that module's `getTravelTime` (note the stored same-zone value 0). -/
def TRAVEL_TIME : List (Str × List (Str × Int)) :=
  [ ("Keskusta (City Center)".data,
      [("Keskusta (City Center)".data, 0), ("Raksila".data, 15), ("Tuira".data, 20), ("Meri-Oulu".data, 25), ("Pateniemi".data, 30), ("Pohjois-Oulu".data, 25), ("Kontinkangas".data, 20), ("Kaakkuri".data, 15), ("Myllyoja".data, 10)]),
    ("Raksila".data,
      [("Keskusta (City Center)".data, 15), ("Raksila".data, 0), ("Tuira".data, 10), ("Meri-Oulu".data, 20), ("Pateniemi".data, 25), ("Pohjois-Oulu".data, 20), ("Kontinkangas".data, 15), ("Kaakkuri".data, 20), ("Myllyoja".data, 10)]),
    ("Tuira".data,
      [("Keskusta (City Center)".data, 20), ("Raksila".data, 10), ("Tuira".data, 0), ("Meri-Oulu".data, 15), ("Pateniemi".data, 20), ("Pohjois-Oulu".data, 15), ("Kontinkangas".data, 20), ("Kaakkuri".data, 25), ("Myllyoja".data, 20)]) ]

/-- `getCareDuration(careNeeded, estimatedCareDuration)` — the Duration
Resolver.  `estimatedCareDuration && estimatedCareDuration > 0` keeps only a
strictly positive override; otherwise the table (or its 45-minute default
entry, via `|| CARE_DURATION['default']`) decides.  Durations are `Nat`
since a non-positive override is ignored anyway. -/
def getCareDuration (careNeeded : Option Str) (estimatedCareDuration : Option Nat) : Nat :=
  match estimatedCareDuration with
  | some v =>
    if 0 < v then v
    else
      match careNeeded with
      | some c => ((jsLookup CARE_DURATION c).map Int.toNat).getD 45
      | none => 45
  | none =>
    match careNeeded with
    | some c => ((jsLookup CARE_DURATION c).map Int.toNat).getD 45
    | none => 45

/-- One element of the professional's `specializations` array (objects with
a `specialization` field). -/
structure SpecializationRecord where
  specialization : Str
  deriving DecidableEq

/-- `checkSkillMatch(patientCareNeeded, professionalSpecializations)` — the
Skill Matcher.  The `for … of Object.entries(CARE_SPECIALTY_MAP)` loop with
an early `return true` is encoded as `List.any` (the loop body has no other
effect). -/
def checkSkillMatch (patientCareNeeded : Option Str)
    (professionalSpecializations : Option (List SpecializationRecord)) : Bool :=
  match patientCareNeeded, professionalSpecializations with
  | some c, some specs =>
    if c = [] ∨ specs = [] then false
    else
      let careNeededLower := toLowerStr c
      let profSpecs := specs.map (fun s => toLowerStr s.specialization)
      if profSpecs.any (fun spec => spec == careNeededLower) then true
      else
        CARE_SPECIALTY_MAP.any (fun e =>
          jsIncludes careNeededLower e.1 &&
          e.2.any (fun validSpec =>
            profSpecs.any (fun profSpec =>
              jsIncludes profSpec (toLowerStr validSpec) ||
              jsIncludes (toLowerStr validSpec) profSpec)))
  | _, _ => false

/-- Leap year test (Gregorian), as used by `Date`. -/
def isLeapYear (y : Nat) : Bool :=
  (y % 4 == 0 && y % 100 != 0) || y % 400 == 0

/-- Days in a month of a given year. -/
def daysInMonth (y m : Nat) : Nat :=
  match m with
  | 2 => if isLeapYear y then 29 else 28
  | 4 => 30
  | 6 => 30
  | 9 => 30
  | 11 => 30
  | _ => 31

/-- Days from January 1 to the first of month `m` in year `y`. -/
def daysBeforeMonth (y m : Nat) : Nat :=
  let base :=
    match m with
    | 1 => 0
    | 2 => 31
    | 3 => 59
    | 4 => 90
    | 5 => 120
    | 6 => 151
    | 7 => 181
    | 8 => 212
    | 9 => 243
    | 10 => 273
    | 11 => 304
    | _ => 334
  base + (if 2 < m ∧ isLeapYear y then 1 else 0)

/-- Day count of the civil date `y-m-d` from the proleptic-Gregorian epoch,
calibrated so that the count mod 7 equals JavaScript `Date.prototype.getDay`
(0 = Sunday): 1970-01-01 maps to 719527 ≡ 4 (Thursday). -/
def civilDayNumber (y m d : Nat) : Nat :=
  365 * y + (y - 1) / 4 - (y - 1) / 100 + (y - 1) / 400 + daysBeforeMonth y m + (d - 1)

/-- `new Date(dateString).getDay()` for an ISO `YYYY-MM-DD` string:
`some` weekday (0 = Sunday … 6 = Saturday), or `none` for an invalid date
(whose `getDay()` is `NaN`). -/
def jsGetDay (s : Str) : Option Nat :=
  match splitOnChar '-' s with
  | [ys, ms, ds] =>
    match parseDigits ys, parseDigits ms, parseDigits ds with
    | some y, some m, some d =>
      if 1 ≤ m ∧ m ≤ 12 ∧ 1 ≤ d ∧ d ≤ daysInMonth y m then
        some (civilDayNumber y m d % 7)
      else none
    | _, _, _ => none
  | _ => none

/-- `dateObj.getDay() === 0 ? 7 : dateObj.getDay()` — weekday 1 = Monday …
7 = Sunday.  An invalid date gives `NaN`, which compares equal to no stored
weekday; the sentinel 8 models that (working-hours rows use 1–7). -/
def jsDayOfWeek (s : Str) : Nat :=
  match jsGetDay s with
  | some 0 => 7
  | some g => g
  | none => 8

/-- `[h, m] = timeString.split(':').map(Number)`, then `h * 60 + m`.
Assumes digit-formed components (`NaN` propagation is not modelled; every
time string in the store and the claims is `HH:MM`). -/
def parseTimeMins (t : Str) : Nat :=
  match splitOnChar ':' t with
  | h :: m :: _ => jsNum h * 60 + jsNum m
  | [h] => jsNum h * 60
  | [] => 0

/-- Format minutes-since-midnight as zero-padded `HH:MM`, exactly as the
source builds `suggestedTime`. -/
def minutesToHHMM (m : Nat) : Str :=
  padStart2 (natToChars (m / 60)) ++ ':' :: padStart2 (natToChars (m % 60))

/-- `addMinutes(timeString, minutes)` from `timeSlotOptimizer.js`. -/
def addMinutes (timeString : Str) (minutes : Nat) : Str :=
  minutesToHHMM (parseTimeMins timeString + minutes)

/-- A `patient_assignments` row. -/
structure Assignment where
  id : Nat
  patient_id : Nat
  professional_id : Nat
  assigned_by_id : Option Nat := none
  assignment_reason : Option Str := none
  scheduled_visit_date : Option Str := none
  scheduled_visit_time : Option Str := none
  status : Str
  deriving DecidableEq

/-- A `working_hours` row. -/
structure WorkingHoursRow where
  professional_id : Nat
  weekday : Nat
  start_time : Str
  end_time : Str
  deriving DecidableEq

/-- The fields of a `patients` row that this core reads. -/
structure PatientRow where
  id : Nat
  care_needed : Option Str := none
  estimated_care_duration : Option Nat := none
  deriving DecidableEq

/-- A `schedules` row. -/
structure ScheduleRow where
  patient_id : Nat
  professional_id : Nat
  date : Str
  start_time : Str
  end_time : Str
  status : Str
  deriving DecidableEq

/-- The data store.  `nextId` models id generation for inserted assignment
rows; row-creation timestamps (`assignment_date`, `updated_at`) are outside
the model. -/
structure DB where
  patients : List PatientRow := []
  workingHours : List WorkingHoursRow := []
  assignments : List Assignment := []
  schedules : List ScheduleRow := []
  nextId : Nat := 0
  deriving DecidableEq

/-- An element of the in-memory `existingAssignments` list built during
bulk assignment. -/
structure MemAssign where
  professional_id : Nat
  scheduled_visit_date : Str
  scheduled_visit_time : Str
  deriving DecidableEq

/-- Result object of `calculateAvailableTimeSlots`; absent JS fields are
`none`/`[]`. -/
structure SlotResult where
  available : Bool
  suggestedTime : Option Str := none
  slots : List Str := []
  reason : Option Str := none
  patientCountOnDay : Option Nat := none
  maxCapacity : Option Nat := none
  deriving DecidableEq

/-- Row predicate for the store's active-assignment count query:
`professional_id = p`, `scheduled_visit_date = d`, `status = 'active'`. -/
def isActiveFor (p : Nat) (d : Str) (a : Assignment) : Bool :=
  a.professional_id == p && a.scheduled_visit_date == some d && a.status == "active".data

/-- Number of active assignments of professional `p` on date `d`. -/
def activeCount (db : DB) (p : Nat) (d : Str) : Nat :=
  List.countP (isActiveFor p d) db.assignments

/-- `calculateAvailableTimeSlots(professionalId, visitDate,
existingAssignments)` — the Slot Calculator.  The `working_hours` query uses
`.single()`, which succeeds exactly when the filter returns one row; both
the error case and a missing row take the no-working-hours branch.  The
capacity-count read is modelled as infallible (the `'Error checking
capacity'` branch of the source never fires in this model). -/
def calculateAvailableTimeSlots (db : DB) (professionalId : Nat) (visitDate : Str)
    (existingAssignments : List MemAssign := []) : SlotResult :=
  let dayOfWeek := jsDayOfWeek visitDate
  match db.workingHours.filter
      (fun r => r.professional_id == professionalId && r.weekday == dayOfWeek) with
  | [workingHours] =>
    let assignedPatients := db.assignments.filter (isActiveFor professionalId visitDate)
    let memoryAssignmentsForDay := existingAssignments.filter (fun a =>
      a.professional_id == professionalId && a.scheduled_visit_date == visitDate)
    let currentPatientCountOnDay := assignedPatients.length + memoryAssignmentsForDay.length
    if 4 ≤ currentPatientCountOnDay then
      { available := false,
        reason := some ("Professional has ".data ++ natToChars currentPatientCountOnDay
          ++ '/' :: natToChars 4 ++ " patients".data),
        patientCountOnDay := some currentPatientCountOnDay,
        maxCapacity := some 4 }
    else
      let dayStart := parseTimeMins workingHours.start_time
      let dayEnd := parseTimeMins workingHours.end_time
      let slotTime := dayStart + currentPatientCountOnDay * 120
      if dayEnd < slotTime + 60 then
        { available := false,
          reason := some ("No time slots available".data),
          patientCountOnDay := some currentPatientCountOnDay }
      else
        let suggestedTime := minutesToHHMM slotTime
        { available := true,
          suggestedTime := some suggestedTime,
          slots := [suggestedTime],
          patientCountOnDay := some currentPatientCountOnDay,
          maxCapacity := some 4 }
  | _ =>
    { available := false,
      reason := some ("No working hours for this day".data),
      patientCountOnDay := some 0,
      maxCapacity := some 4 }

/-- Store-write fault injection for one `smartAssignPatient` call. -/
structure Faults where
  assignInsertError : Bool := false
  scheduleInsertError : Bool := false
  deriving DecidableEq

/-- Result object of `smartAssignPatient`. -/
structure AssignResult where
  success : Bool
  error : Option Str := none
  assignment : Option Assignment := none
  suggestedTime : Option Str := none
  deriving DecidableEq

/-- `smartAssignPatient(patientId, professionalId, date, assignedById)` —
`assignOne`.  Step order as in the source: load patient (`.single()`), call
the Slot Calculator **with no in-batch context**, insert the assignment
(checked: an error is thrown and caught, yielding a failure result), insert
the schedule entry (unchecked: its error is ignored).  Failure messages of
the store are modelled by fixed sentinel strings. -/
def smartAssignPatient (db : DB) (f : Faults) (patientId professionalId : Nat)
    (date : Str) (assignedById : Option Nat) : DB × AssignResult :=
  match db.patients.filter (fun p => p.id == patientId) with
  | [patient] =>
    let slots := calculateAvailableTimeSlots db professionalId date
    if slots.available then
      if f.assignInsertError then
        (db, { success := false, error := some ("assignment insert failed".data) })
      else
        let newAssignment : Assignment :=
          { id := db.nextId,
            patient_id := patientId,
            professional_id := professionalId,
            assigned_by_id := assignedById,
            scheduled_visit_date := some date,
            scheduled_visit_time := slots.suggestedTime,
            status := "active".data }
        let db1 : DB := { db with
          assignments := db.assignments ++ [newAssignment],
          nextId := db.nextId + 1 }
        let st := slots.suggestedTime.getD []
        let db2 : DB :=
          if f.scheduleInsertError then db1
          else { db1 with schedules := db1.schedules ++
            [{ patient_id := patientId,
               professional_id := professionalId,
               date := date,
               start_time := st,
               end_time := addMinutes st
                 (getCareDuration patient.care_needed patient.estimated_care_duration),
               status := "scheduled".data }] }
        (db2, { success := true, assignment := some newAssignment,
                suggestedTime := slots.suggestedTime })
    else
      (db, { success := false, error := slots.reason })
  | _ =>
    (db, { success := false, error := some ("patient not found".data) })

/-- One input element of `bulkAssignPatients`, together with the store's
fault behaviour for its `smartAssignPatient` call. -/
structure BulkItem where
  patient_id : Nat
  professional_id : Nat
  date : Str
  faults : Faults := {}
  deriving DecidableEq

/-- One element of the bulk `results` array (the input item merged with the
outcome of its call). -/
structure BulkResultEntry where
  patient_id : Nat
  professional_id : Nat
  date : Str
  success : Bool
  error : Option Str := none
  suggestedTime : Option Str := none
  deriving DecidableEq

/-- Outcome object of `bulkAssignPatients`. -/
structure BulkOutcome where
  total : Nat
  successful : Nat
  failed : Nat
  results : List BulkResultEntry
  deriving DecidableEq

/-- The loop body of `bulkAssignPatients`: sequentially calls
`smartAssignPatient` and accumulates `existingAssignments` from successful
items — which, as in the source, is **never passed** to any later call. -/
def bulkLoop (assignedById : Option Nat) :
    DB → List BulkItem → List MemAssign → DB × List BulkResultEntry
  | db, [], _ => (db, [])
  | db, item :: rest, existingAssignments =>
    let step := smartAssignPatient db item.faults item.patient_id item.professional_id
      item.date assignedById
    let entry : BulkResultEntry :=
      { patient_id := item.patient_id,
        professional_id := item.professional_id,
        date := item.date,
        success := step.2.success,
        error := step.2.error,
        suggestedTime := step.2.suggestedTime }
    let existingAssignments1 :=
      if step.2.success then
        existingAssignments ++
          [{ professional_id := item.professional_id,
             scheduled_visit_date := item.date,
             scheduled_visit_time := step.2.suggestedTime.getD [] }]
      else existingAssignments
    let tail := bulkLoop assignedById step.1 rest existingAssignments1
    (tail.1, entry :: tail.2)

/-- `bulkAssignPatients(assignments, assignedById)` — `assignBulk`. -/
def bulkAssignPatients (db : DB) (items : List BulkItem) (assignedById : Option Nat) :
    DB × BulkOutcome :=
  let run := bulkLoop assignedById db items []
  (run.1,
   { total := items.length,
     successful := (run.2.filter (fun r => r.success)).length,
     failed := (run.2.filter (fun r => !r.success)).length,
     results := run.2 })

/-- Store-write fault injection for one reassign request. -/
structure ReassignFaults where
  updateError : Bool := false
  insertError : Bool := false
  deriving DecidableEq

/-- The first store call of the reassign route: `update { status:
'reassigned' } where id = oldAssignmentId`, whose error is not checked
(`updateError` makes the write silently not happen). -/
def reassignMarkOld (db : DB) (f : ReassignFaults) (oldAssignmentId : Nat) : DB :=
  if f.updateError then db
  else { db with assignments := db.assignments.map (fun a =>
    if a.id == oldAssignmentId then { a with status := "reassigned".data } else a) }

/-- `POST /:id/reassign` from `routes/assignments.js`: set the old
assignment's status to `reassigned` (the update's error is not checked),
fetch it (`.single()`), then insert a new `active` assignment for the new
professional — with **no** `scheduled_visit_date`/`scheduled_visit_time`.
Returns the new assignment, or `none` for an error response. -/
def reassign (db : DB) (f : ReassignFaults) (oldAssignmentId newProfessionalId : Nat)
    (reason : Option Str) (userId : Nat) : DB × Option Assignment :=
  let db1 : DB := reassignMarkOld db f oldAssignmentId
  match db1.assignments.filter (fun a => a.id == oldAssignmentId) with
  | [oldAssignment] =>
    if f.insertError then (db1, none)
    else
      let newAssignment : Assignment :=
        { id := db1.nextId,
          patient_id := oldAssignment.patient_id,
          professional_id := newProfessionalId,
          assigned_by_id := some userId,
          assignment_reason := some (match reason with
            | some r => if r = [] then "Reassignment".data else r
            | none => "Reassignment".data),
          status := "active".data }
      ({ db1 with assignments := db1.assignments ++ [newAssignment],
                  nextId := db1.nextId + 1 },
       some newAssignment)
  | _ => (db1, none)

/-- The operations of claim C1, with their store-fault behaviour. -/
inductive Op where
  | assignOne (f : Faults) (patientId professionalId : Nat) (date : Str)
      (assignedById : Option Nat)
  | assignBulk (items : List BulkItem) (assignedById : Option Nat)
  | reassignOp (f : ReassignFaults) (oldId newProf : Nat) (reason : Option Str)
      (userId : Nat)

/-- Effect of one operation on the store. -/
def stepOp (db : DB) : Op → DB
  | .assignOne f pid prof date aid => (smartAssignPatient db f pid prof date aid).1
  | .assignBulk items aid => (bulkAssignPatients db items aid).1
  | .reassignOp f oldId newProf reason userId =>
      (reassign db f oldId newProf reason userId).1

/-- Effect of a sequence of operations on the store. -/
def runOps (db : DB) (ops : List Op) : DB := ops.foldl stepOp db

/-- Follows the spec's words (§4.4 step 3 and §4.5 `assignBulk`): identical
to `smartAssignPatient` except that the caller-supplied in-batch context is
passed to the Slot Calculator.  This second definition exists only to be
compared against the source's `bulkAssignPatients` (claim C2); the source
never passes such a context. -/
def smartAssignPatientCtx (db : DB) (f : Faults) (patientId professionalId : Nat)
    (date : Str) (assignedById : Option Nat) (ctx : List MemAssign) : DB × AssignResult :=
  match db.patients.filter (fun p => p.id == patientId) with
  | [patient] =>
    let slots := calculateAvailableTimeSlots db professionalId date ctx
    if slots.available then
      if f.assignInsertError then
        (db, { success := false, error := some ("assignment insert failed".data) })
      else
        let newAssignment : Assignment :=
          { id := db.nextId,
            patient_id := patientId,
            professional_id := professionalId,
            assigned_by_id := assignedById,
            scheduled_visit_date := some date,
            scheduled_visit_time := slots.suggestedTime,
            status := "active".data }
        let db1 : DB := { db with
          assignments := db.assignments ++ [newAssignment],
          nextId := db.nextId + 1 }
        let st := slots.suggestedTime.getD []
        let db2 : DB :=
          if f.scheduleInsertError then db1
          else { db1 with schedules := db1.schedules ++
            [{ patient_id := patientId,
               professional_id := professionalId,
               date := date,
               start_time := st,
               end_time := addMinutes st
                 (getCareDuration patient.care_needed patient.estimated_care_duration),
               status := "scheduled".data }] }
        (db2, { success := true, assignment := some newAssignment,
                suggestedTime := slots.suggestedTime })
    else
      (db, { success := false, error := slots.reason })
  | _ =>
    (db, { success := false, error := some ("patient not found".data) })

/-- Loop of the claimed bulk behaviour: as `bulkLoop`, but the accumulated
triples are handed to each `smartAssignPatientCtx` call. -/
def bulkLoopClaimed (assignedById : Option Nat) :
    DB → List BulkItem → List MemAssign → DB × List BulkResultEntry
  | db, [], _ => (db, [])
  | db, item :: rest, existingAssignments =>
    let step := smartAssignPatientCtx db item.faults item.patient_id item.professional_id
      item.date assignedById existingAssignments
    let entry : BulkResultEntry :=
      { patient_id := item.patient_id,
        professional_id := item.professional_id,
        date := item.date,
        success := step.2.success,
        error := step.2.error,
        suggestedTime := step.2.suggestedTime }
    let existingAssignments1 :=
      if step.2.success then
        existingAssignments ++
          [{ professional_id := item.professional_id,
             scheduled_visit_date := item.date,
             scheduled_visit_time := step.2.suggestedTime.getD [] }]
      else existingAssignments
    let tail := bulkLoopClaimed assignedById step.1 rest existingAssignments1
    (tail.1, entry :: tail.2)

/-- Follows the spec's words: `assignBulk` as claim C2 describes it, where
the Slot Calculator call for item `i` also counts the successfully-created
triples of items before `i`. -/
def bulkAssignPatientsClaimed (db : DB) (items : List BulkItem)
    (assignedById : Option Nat) : DB × BulkOutcome :=
  let run := bulkLoopClaimed assignedById db items []
  (run.1,
   { total := items.length,
     successful := (run.2.filter (fun r => r.success)).length,
     failed := (run.2.filter (fun r => !r.success)).length,
     results := run.2 })

noncomputable section

/-- Degrees to radians. -/
def toRadians (degrees : ℝ) : ℝ := degrees * (Real.pi / 180)

/-- JavaScript `Math.atan2` on real arguments. -/
def atan2 (y x : ℝ) : ℝ :=
  if 0 < x then Real.arctan (y / x)
  else if x < 0 then
    (if 0 ≤ y then Real.arctan (y / x) + Real.pi else Real.arctan (y / x) - Real.pi)
  else
    (if 0 < y then Real.pi / 2 else if y < 0 then -(Real.pi / 2) else 0)

/-- `calculateDistance(lat1, lng1, lat2, lng2)` from `geoUtils.js` —
haversine great-circle distance, Earth radius 6371 km. -/
def calculateDistance (lat1 lng1 lat2 lng2 : ℝ) : ℝ :=
  let dLat := toRadians (lat2 - lat1)
  let dLng := toRadians (lng2 - lng1)
  let a := Real.sin (dLat / 2) * Real.sin (dLat / 2) +
    Real.cos (toRadians lat1) * Real.cos (toRadians lat2) *
    Real.sin (dLng / 2) * Real.sin (dLng / 2)
  let c := 2 * atan2 (Real.sqrt a) (Real.sqrt (1 - a))
  6371 * c

/-- `calculateTravelTime(lat1, lng1, lat2, lng2)` from `geoUtils.js`:
30 % road inflation, 30 km/h, 5-minute buffer, `Math.ceil`. -/
def calculateTravelTime (lat1 lng1 lat2 lng2 : ℝ) : ℤ :=
  let distanceKm := calculateDistance lat1 lng1 lat2 lng2
  let travelMinutes := distanceKm * 1.3 / 30 * 60
  ⌈travelMinutes + 5⌉

end

/-- `ZONE_TRAVEL_TIME` from `geoUtils.js` (same-zone entries stored as 5). -/
def ZONE_TRAVEL_TIME : List (Str × List (Str × Int)) :=
  [ ("Keskusta (City Center)".data,
      [("Keskusta (City Center)".data, 5), ("Raksila".data, 10), ("Tuira".data, 12), ("Meri-Oulu".data, 15), ("Pateniemi".data, 20), ("Pohjois-Oulu".data, 15), ("Kontinkangas".data, 12), ("Kaakkuri".data, 10), ("Myllyoja".data, 8)]),
    ("Raksila".data,
      [("Keskusta (City Center)".data, 10), ("Raksila".data, 5), ("Tuira".data, 8), ("Meri-Oulu".data, 12), ("Pateniemi".data, 18), ("Pohjois-Oulu".data, 12), ("Kontinkangas".data, 10), ("Kaakkuri".data, 12), ("Myllyoja".data, 8)]),
    ("Tuira".data,
      [("Keskusta (City Center)".data, 12), ("Raksila".data, 8), ("Tuira".data, 5), ("Meri-Oulu".data, 10), ("Pateniemi".data, 15), ("Pohjois-Oulu".data, 10), ("Kontinkangas".data, 12), ("Kaakkuri".data, 15), ("Myllyoja".data, 12)]),
    ("Meri-Oulu".data,
      [("Keskusta (City Center)".data, 15), ("Raksila".data, 12), ("Tuira".data, 10), ("Meri-Oulu".data, 5), ("Pateniemi".data, 8), ("Pohjois-Oulu".data, 12), ("Kontinkangas".data, 18), ("Kaakkuri".data, 20), ("Myllyoja".data, 18)]),
    ("Pateniemi".data,
      [("Keskusta (City Center)".data, 20), ("Raksila".data, 18), ("Tuira".data, 15), ("Meri-Oulu".data, 8), ("Pateniemi".data, 5), ("Pohjois-Oulu".data, 15), ("Kontinkangas".data, 22), ("Kaakkuri".data, 25), ("Myllyoja".data, 22)]),
    ("Pohjois-Oulu".data,
      [("Keskusta (City Center)".data, 15), ("Raksila".data, 12), ("Tuira".data, 10), ("Meri-Oulu".data, 12), ("Pateniemi".data, 15), ("Pohjois-Oulu".data, 5), ("Kontinkangas".data, 10), ("Kaakkuri".data, 12), ("Myllyoja".data, 12)]),
    ("Kontinkangas".data,
      [("Keskusta (City Center)".data, 12), ("Raksila".data, 10), ("Tuira".data, 12), ("Meri-Oulu".data, 18), ("Pateniemi".data, 22), ("Pohjois-Oulu".data, 10), ("Kontinkangas".data, 5), ("Kaakkuri".data, 8), ("Myllyoja".data, 10)]),
    ("Kaakkuri".data,
      [("Keskusta (City Center)".data, 10), ("Raksila".data, 12), ("Tuira".data, 15), ("Meri-Oulu".data, 20), ("Pateniemi".data, 25), ("Pohjois-Oulu".data, 12), ("Kontinkangas".data, 8), ("Kaakkuri".data, 5), ("Myllyoja".data, 12)]),
    ("Myllyoja".data,
      [("Keskusta (City Center)".data, 8), ("Raksila".data, 8), ("Tuira".data, 12), ("Meri-Oulu".data, 18), ("Pateniemi".data, 22), ("Pohjois-Oulu".data, 12), ("Kontinkangas".data, 10), ("Kaakkuri".data, 12), ("Myllyoja".data, 5)]) ]

/-- `getZoneBasedTravelTime(fromArea, toArea)` from `geoUtils.js`. -/
def getZoneBasedTravelTime (fromArea toArea : Option Str) : Int :=
  if jsStrFalsy fromArea || jsStrFalsy toArea then 15
  else
    match fromArea, toArea with
    | some f, some t =>
      (match jsLookup ZONE_TRAVEL_TIME f with
       | some fromZone => jsOr0 (jsLookup fromZone t) 15
       | none => 15)
    | _, _ => 15

/-- Zone path of the optimizer's `getTravelTime` (`timeSlotOptimizer.js`):
`if (!from || !to) return 15`, then `TRAVEL_TIME[from]` and
`routeMap[to] || 20` — so a missing row, a missing key, **or a stored 0**
all give 20. -/
def getTravelTimeZonePath (fromArea toArea : Option Str) : Int :=
  if jsStrFalsy fromArea || jsStrFalsy toArea then 15
  else
    match fromArea, toArea with
    | some f, some t =>
      (match jsLookup TRAVEL_TIME f with
       | some routeMap => jsOr0 (jsLookup routeMap t) 20
       | none => 20)
    | _, _ => 15

/-- Coordinates carried by `fromCoords`/`toCoords`. -/
structure Coords where
  lat : ℝ
  lng : ℝ

open Classical in
/-- `getTravelTime(from, to, fromCoords, toCoords)` from
`timeSlotOptimizer.js`.  The coordinate branch is taken when all four
coordinate components are present and truthy (nonzero). -/
noncomputable def getTravelTime (fromArea toArea : Option Str)
    (fromCoords toCoords : Option Coords) : Int :=
  match fromCoords, toCoords with
  | some a, some b =>
    if a.lat ≠ 0 ∧ a.lng ≠ 0 ∧ b.lat ≠ 0 ∧ b.lng ≠ 0 then
      calculateTravelTime a.lat a.lng b.lat b.lng
    else getTravelTimeZonePath fromArea toArea
  | _, _ => getTravelTimeZonePath fromArea toArea

/-- A patient object as read by `optimizeRouteByDistance`. -/
structure RoutePatient where
  id : Nat
  latitude : Option ℝ := none
  longitude : Option ℝ := none
  area : Option Str := none
  deriving Inhabited

/-- A location object (`startLocation` / `currentLocation`). -/
structure LocationJS where
  lat : Option ℝ := none
  lng : Option ℝ := none
  area : Option Str := none

/-- `OULU_CENTER` from `geoUtils.js`. -/
def OULU_CENTER : LocationJS := { lat := some 65.0121, lng := some 25.4651 }

/-- JavaScript truthiness of an optional number: absent and 0 are falsy. -/
def jsTruthyNum (o : Option ℝ) : Prop :=
  match o with
  | some v => v ≠ 0
  | none => False

open Classical in
/-- The per-candidate `distance` computation in the nearest-neighbor loop:
coordinate distance when every coordinate is truthy, else half the
zone-based travel time. -/
noncomputable def nnDistance (currentLocation : LocationJS) (patient : RoutePatient) : ℝ :=
  if jsTruthyNum patient.latitude ∧ jsTruthyNum patient.longitude ∧
      jsTruthyNum currentLocation.lat ∧ jsTruthyNum currentLocation.lng then
    calculateDistance (currentLocation.lat.getD 0) (currentLocation.lng.getD 0)
      (patient.latitude.getD 0) (patient.longitude.getD 0)
  else (getZoneBasedTravelTime currentLocation.area patient.area : ℝ) / 2

/-- `d < best`, where `none` models the initial `Infinity`. -/
def ltInfinity (d : ℝ) (best : Option ℝ) : Prop :=
  match best with
  | none => True
  | some b => d < b

open Classical in
/-- Body of the inner `for` loop: keep `acc` unless candidate `i` is
strictly nearer than the best so far. -/
noncomputable def nearestStep (currentLocation : LocationJS)
    (remaining : List RoutePatient) (acc : Nat × Option ℝ) (i : Nat) : Nat × Option ℝ :=
  let d := nnDistance currentLocation (remaining.getD i default)
  if ltInfinity d acc.2 then (i, some d) else acc

/-- The inner `for` loop: index and value of the nearest remaining patient
(first-encountered index wins ties, strict `<` as in the source, starting
from `nearestIndex = 0` and `nearestDistance = Infinity`). -/
noncomputable def nearestSel (currentLocation : LocationJS)
    (remaining : List RoutePatient) : Nat × Option ℝ :=
  (List.range remaining.length).foldl (nearestStep currentLocation remaining) (0, none)

/-- Advance `currentLocation` to the chosen patient. -/
def locOf (p : RoutePatient) : LocationJS :=
  { lat := p.latitude, lng := p.longitude, area := p.area }

/-- The `while (remaining.length > 0)` loop, structurally recursive on a
fuel that the wrapper instantiates with the list length (each iteration
removes exactly one element, so that fuel suffices). -/
noncomputable def optimizeLoopFuel : Nat → List RoutePatient → LocationJS → List RoutePatient
  | 0, _, _ => []
  | fuel + 1, remaining, currentLocation =>
    if remaining.isEmpty then []
    else
      let nearestIndex := (nearestSel currentLocation remaining).1
      let nearest := remaining.getD nearestIndex default
      nearest :: optimizeLoopFuel fuel (remaining.eraseIdx nearestIndex) (locOf nearest)

/-- `optimizeRouteByDistance(patients, startLocation)` from `geoUtils.js` —
nearest-neighbor route ordering. -/
noncomputable def optimizeRouteByDistance (patients : Option (List RoutePatient))
    (startLocation : Option LocationJS) : List RoutePatient :=
  match patients with
  | none => []
  | some ps =>
    if ps.length = 0 then []
    else if ps.length = 1 then ps
    else optimizeLoopFuel ps.length ps (startLocation.getD OULU_CENTER)

/-- A Monday (weekday 1): 2026-01-05. -/
def dMon : Str := "2026-01-05".data

/-- Concrete store: patient 1; professional 2 works Mondays 08:00–16:00. -/
def dbWide : DB :=
  { patients := [{ id := 1 }],
    workingHours := [{ professional_id := 2, weekday := 1,
                       start_time := "08:00".data, end_time := "16:00".data }],
    nextId := 100 }

/-- Concrete store: professional 2 works Mondays 08:00–09:00 only, and
patient 1 carries a 90-minute explicit duration override. -/
def dbTight : DB :=
  { patients := [{ id := 1, estimated_care_duration := some 90 }],
    workingHours := [{ professional_id := 2, weekday := 1,
                       start_time := "08:00".data, end_time := "09:00".data }],
    nextId := 100 }

/-- Concrete store: professional 2 works Mondays 08:00–20:00 and already has
two active assignments on 2026-01-05; patients 11, 12, 13 exist. -/
def dbBatch : DB :=
  { patients := [{ id := 11 }, { id := 12 }, { id := 13 }],
    workingHours := [{ professional_id := 2, weekday := 1,
                       start_time := "08:00".data, end_time := "20:00".data }],
    assignments :=
      [ { id := 50, patient_id := 8, professional_id := 2,
          scheduled_visit_date := some dMon,
          scheduled_visit_time := some ("08:00".data), status := "active".data },
        { id := 51, patient_id := 9, professional_id := 2,
          scheduled_visit_date := some dMon,
          scheduled_visit_time := some ("10:00".data), status := "active".data } ],
    nextId := 100 }

/-- A three-item batch, all for professional 2 on 2026-01-05. -/
def batchItems : List BulkItem :=
  [ { patient_id := 11, professional_id := 2, date := dMon },
    { patient_id := 12, professional_id := 2, date := dMon },
    { patient_id := 13, professional_id := 2, date := dMon } ]

lemma atan2_nonneg (y x : ℝ) (hy : 0 ≤ y) : 0 ≤ atan2 y x := by
  unfold atan2
  by_cases h1 : 0 < x
  · rw [if_pos h1]
    have := Real.arctan_strictMono.monotone (div_nonneg hy h1.le)
    rwa [Real.arctan_zero] at this
  · rw [if_neg h1]
    by_cases h2 : x < 0
    · rw [if_pos h2, if_pos hy]
      nlinarith [Real.neg_pi_div_two_lt_arctan (y / x), Real.pi_pos]
    · rw [if_neg h2]
      by_cases h3 : 0 < y
      · rw [if_pos h3]
        positivity
      · rw [if_neg h3, if_neg (by linarith : ¬ y < 0)]

lemma mul_atan2_sqrt_nonneg (u v : ℝ) : 0 ≤ 6371 * (2 * atan2 (Real.sqrt u) (Real.sqrt v)) := by
  have h := atan2_nonneg (Real.sqrt u) (Real.sqrt v) (Real.sqrt_nonneg u)
  nlinarith [h]

lemma calculateDistance_nonneg (lat1 lng1 lat2 lng2 : ℝ) :
    0 ≤ calculateDistance lat1 lng1 lat2 lng2 := by
  unfold calculateDistance
  exact mul_atan2_sqrt_nonneg _ _

lemma calculateDistance_self (lat lng : ℝ) : calculateDistance lat lng lat lng = 0 := by
  unfold calculateDistance toRadians atan2
  norm_num [Real.sqrt_one, Real.arctan_zero]

/-- Claim C6: for every pair of coordinates, `calculateTravelTime` equals
`ceil(distance * 1.3 / 30 * 60 + 5)`; as an integer it is always ≥ 5, and it
is exactly 5 when the distance is zero. -/
theorem calculateTravelTime_formula (lat1 lng1 lat2 lng2 : ℝ) :
    calculateTravelTime lat1 lng1 lat2 lng2 =
      ⌈calculateDistance lat1 lng1 lat2 lng2 * 1.3 / 30 * 60 + 5⌉ ∧
    5 ≤ calculateTravelTime lat1 lng1 lat2 lng2 ∧
    (calculateDistance lat1 lng1 lat2 lng2 = 0 →
      calculateTravelTime lat1 lng1 lat2 lng2 = 5) := by
  refine ⟨rfl, ?_, ?_⟩
  · unfold calculateTravelTime
    have hd := calculateDistance_nonneg lat1 lng1 lat2 lng2
    calc (5:ℤ) = ⌈(5:ℝ)⌉ := by norm_num
    _ ≤ _ := Int.ceil_le_ceil (by nlinarith)
  · intro h
    unfold calculateTravelTime
    rw [h]
    norm_num

lemma atan2_sin_cos (θ : ℝ) (h0 : 0 ≤ θ) (h2 : θ < Real.pi / 2) :
    atan2 (Real.sqrt (Real.sin θ * Real.sin θ))
      (Real.sqrt (1 - Real.sin θ * Real.sin θ)) = θ := by
  have hπ := Real.pi_pos
  have hs : 0 ≤ Real.sin θ :=
    Real.sin_nonneg_of_nonneg_of_le_pi h0 (by linarith)
  have hc : 0 < Real.cos θ := Real.cos_pos_of_mem_Ioo ⟨by linarith, h2⟩
  have h1 : 1 - Real.sin θ * Real.sin θ = Real.cos θ * Real.cos θ := by
    nlinarith [Real.sin_sq_add_cos_sq θ]
  rw [Real.sqrt_mul_self hs, h1, Real.sqrt_mul_self hc.le]
  unfold atan2
  rw [if_pos hc, ← Real.tan_eq_sin_div_cos, Real.arctan_tan (by linarith) h2]

lemma calculateDistance_equator (x : ℝ) (h0 : 0 ≤ x) (hx : x < 180) :
    calculateDistance 0 0 0 x = 6371 * (x * Real.pi / 180) := by
  have hπ := Real.pi_pos
  have hθ0 : 0 ≤ x * (Real.pi / 180) / 2 := by positivity
  have hθ2 : x * (Real.pi / 180) / 2 < Real.pi / 2 := by nlinarith
  unfold calculateDistance toRadians
  norm_num
  rw [atan2_sin_cos (x * (Real.pi / 180) / 2) hθ0 hθ2]
  ring

lemma dist_equator_lt :
    calculateDistance 0 0 0 (1/1000) < calculateDistance 0 0 0 (2/1000) := by
  rw [calculateDistance_equator (1/1000) (by norm_num) (by norm_num),
    calculateDistance_equator (2/1000) (by norm_num) (by norm_num)]
  nlinarith [Real.pi_pos]

lemma tt_equator_1 : calculateTravelTime 0 0 0 (1/1000) = 6 := by
  unfold calculateTravelTime
  rw [calculateDistance_equator (1/1000) (by norm_num) (by norm_num)]
  dsimp only
  rw [Int.ceil_eq_iff]
  constructor
  · push_cast
    nlinarith [Real.pi_pos]
  · push_cast
    nlinarith [Real.pi_lt_d2]

lemma tt_equator_2 : calculateTravelTime 0 0 0 (2/1000) = 6 := by
  unfold calculateTravelTime
  rw [calculateDistance_equator (2/1000) (by norm_num) (by norm_num)]
  dsimp only
  rw [Int.ceil_eq_iff]
  constructor
  · push_cast
    nlinarith [Real.pi_pos]
  · push_cast
    nlinarith [Real.pi_lt_d2]

/-- Claim C7 counterexample: two coordinate pairs on the equator whose
distances differ (about 111 m vs 222 m) but whose travel times are equal —
the ceiling collapses small distance differences, so `calculateTravelTime`
does not strictly increase with distance. -/
theorem calculateTravelTime_not_strictly_increasing :
    calculateDistance 0 0 0 (1/1000) < calculateDistance 0 0 0 (2/1000) ∧
    calculateTravelTime 0 0 0 (1/1000) = calculateTravelTime 0 0 0 (2/1000) :=
  ⟨dist_equator_lt, by rw [tt_equator_1, tt_equator_2]⟩

/-- Claim C7 as amended: `calculateTravelTime` is monotone (non-strictly)
in the distance — a pair at greater-or-equal distance never has a smaller
travel time.  Strictness fails because of the ceiling (see the
counterexample). -/
theorem calculateTravelTime_mono (lat1 lng1 lat2 lng2 lat3 lng3 lat4 lng4 : ℝ)
    (h : calculateDistance lat1 lng1 lat2 lng2 ≤ calculateDistance lat3 lng3 lat4 lng4) :
    calculateTravelTime lat1 lng1 lat2 lng2 ≤ calculateTravelTime lat3 lng3 lat4 lng4 := by
  unfold calculateTravelTime
  exact Int.ceil_le_ceil (by nlinarith)

/-- Claim C10: for every zone present in the optimizer's `TRAVEL_TIME`
table, the stored same-zone value is 0, and `getTravelTime(Z, Z)` without
coordinates returns the unknown-destination default 20, because
`routeMap[to] || 20` treats the stored 0 as missing. -/
theorem getTravelTime_sameZone_default (z : Str)
    (h : z ∈ TRAVEL_TIME.map (fun e => e.1)) :
    ((jsLookup TRAVEL_TIME z).map (fun row => jsLookup row z)) = some (some 0) ∧
    getTravelTime (some z) (some z) none none = 20 := by
  simp only [TRAVEL_TIME, List.map_cons, List.map_nil, List.mem_cons,
    List.not_mem_nil, or_false] at h
  rcases h with h | h | h <;> subst h <;> exact ⟨by decide, by decide⟩



/-- Claim C8: `checkSkillMatch` returns false when either input is
null/empty or the list is empty; otherwise it returns true exactly when
some specialization equals the care string case-insensitively, or some
table key is a substring of the lower-cased care string and some
professional specialization stands in a substring relationship (either
direction, case-insensitive) with one of that key's valid
specializations. -/
theorem checkSkillMatch_spec (care : Option Str)
    (specs : Option (List SpecializationRecord)) :
    ((care = none ∨ care = some [] ∨ specs = none ∨ specs = some []) →
      checkSkillMatch care specs = false) ∧
    (∀ c l, care = some c → specs = some l → c ≠ [] → l ≠ [] →
      (checkSkillMatch care specs = true ↔
        ((∃ s ∈ l, toLowerStr s.specialization = toLowerStr c) ∨
         (∃ e ∈ CARE_SPECIALTY_MAP, e.1 <:+: toLowerStr c ∧
           ∃ v ∈ e.2, ∃ s ∈ l,
             toLowerStr v <:+: toLowerStr s.specialization ∨
             toLowerStr s.specialization <:+: toLowerStr v)))) := by
  constructor
  · rintro (h | h | h | h) <;> subst h
    · rcases specs with _ | l <;> rfl
    · rcases specs with _ | l
      · rfl
      · simp [checkSkillMatch]
    · rcases care with _ | c <;> rfl
    · rcases care with _ | c
      · rfl
      · simp [checkSkillMatch]
  · intro c l hc hl hc0 hl0
    subst hc hl
    simp only [checkSkillMatch]
    rw [if_neg (by simp [hc0, hl0])]
    by_cases hexact : (l.map (fun s => toLowerStr s.specialization)).any
        (fun spec => spec == toLowerStr c)
    · rw [if_pos hexact]
      simp only [List.any_eq_true, List.mem_map, beq_iff_eq] at hexact
      simp only [true_iff]
      obtain ⟨x, ⟨s, hs, hfs⟩, hx⟩ := hexact
      exact Or.inl ⟨s, hs, hfs.trans hx⟩
    · rw [if_neg hexact]
      simp only [List.any_eq_true, List.mem_map, beq_iff_eq] at hexact
      push_neg at hexact
      simp only [List.any_eq_true, Bool.and_eq_true, jsIncludes, decide_eq_true_eq,
        List.mem_map, Bool.or_eq_true]
      constructor
      · rintro ⟨e, he, h1, v, hv, x, ⟨s, hs, rfl⟩, h2⟩
        exact Or.inr ⟨e, he, h1, v, hv, s, hs, h2⟩
      · rintro (⟨s, hs, h⟩ | ⟨e, he, h1, v, hv, s, hs, h2⟩)
        · exact absurd h (hexact _ ⟨s, hs, rfl⟩)
        · exact ⟨e, he, h1, v, hv, _, ⟨s, hs, rfl⟩, h2⟩

/-- Claim C5: with exactly one working-hours row for the target weekday
and current count `c < 4`, the Slot Calculator returns the candidate
`workingHoursStart + c * 120` minutes formatted as zero-padded `HH:MM`, and
fails with reason `No time slots available` exactly when that candidate
plus 60 minutes exceeds the working-hours end; when `c ≥ 4` it fails
reporting `<count>/<capacity> patients`; with no working-hours row it
fails with the no-working-hours reason and `patientCountOnDay = 0`. -/
theorem calculateAvailableTimeSlots_cases (db : DB) (p : Nat) (date : Str)
    (ex : List MemAssign) :
    (db.workingHours.filter
        (fun r => r.professional_id == p && r.weekday == jsDayOfWeek date) = [] →
      calculateAvailableTimeSlots db p date ex =
        { available := false, reason := some ("No working hours for this day".data),
          patientCountOnDay := some 0, maxCapacity := some 4 }) ∧
    (∀ wh, db.workingHours.filter
        (fun r => r.professional_id == p && r.weekday == jsDayOfWeek date) = [wh] →
      (4 ≤ activeCount db p date + (ex.filter (fun a =>
          a.professional_id == p && a.scheduled_visit_date == date)).length →
        calculateAvailableTimeSlots db p date ex =
          { available := false,
            reason := some ("Professional has ".data ++
              natToChars (activeCount db p date + (ex.filter (fun a =>
                a.professional_id == p && a.scheduled_visit_date == date)).length)
              ++ '/' :: natToChars 4 ++ " patients".data),
            patientCountOnDay := some (activeCount db p date + (ex.filter (fun a =>
              a.professional_id == p && a.scheduled_visit_date == date)).length),
            maxCapacity := some 4 }) ∧
      (activeCount db p date + (ex.filter (fun a =>
          a.professional_id == p && a.scheduled_visit_date == date)).length < 4 →
        (parseTimeMins wh.end_time <
            parseTimeMins wh.start_time + (activeCount db p date + (ex.filter (fun a =>
              a.professional_id == p && a.scheduled_visit_date == date)).length) * 120 + 60 →
          calculateAvailableTimeSlots db p date ex =
            { available := false, reason := some ("No time slots available".data),
              patientCountOnDay := some (activeCount db p date + (ex.filter (fun a =>
                a.professional_id == p && a.scheduled_visit_date == date)).length) }) ∧
        (parseTimeMins wh.start_time + (activeCount db p date + (ex.filter (fun a =>
              a.professional_id == p && a.scheduled_visit_date == date)).length) * 120 + 60 ≤
            parseTimeMins wh.end_time →
          calculateAvailableTimeSlots db p date ex =
            { available := true,
              suggestedTime := some (minutesToHHMM (parseTimeMins wh.start_time +
                (activeCount db p date + (ex.filter (fun a =>
                  a.professional_id == p && a.scheduled_visit_date == date)).length) * 120)),
              slots := [minutesToHHMM (parseTimeMins wh.start_time +
                (activeCount db p date + (ex.filter (fun a =>
                  a.professional_id == p && a.scheduled_visit_date == date)).length) * 120)],
              patientCountOnDay := some (activeCount db p date + (ex.filter (fun a =>
                a.professional_id == p && a.scheduled_visit_date == date)).length),
              maxCapacity := some 4 }))) := by
  have hcount : (db.assignments.filter (isActiveFor p date)).length = activeCount db p date := by
    rw [activeCount, List.countP_eq_length_filter]
  constructor
  · intro h
    simp only [calculateAvailableTimeSlots]
    rw [h]
  · intro wh hwh
    refine ⟨?_, ?_⟩
    · intro hcap
      simp only [calculateAvailableTimeSlots]
      rw [hwh]
      simp only [hcount]
      rw [if_pos hcap]
    · intro hcap
      constructor
      · intro hslot
        simp only [calculateAvailableTimeSlots]
        rw [hwh]
        simp only [hcount]
        rw [if_neg (by omega), if_pos hslot]
      · intro hslot
        simp only [calculateAvailableTimeSlots]
        rw [hwh]
        simp only [hcount]
        rw [if_neg (by omega), if_neg (by omega)]

lemma smartAssignPatient_effect (db : DB) (f : Faults) (pid prof : Nat) (date : Str)
    (aid : Option Nat) :
    ((smartAssignPatient db f pid prof date aid).2.success = true →
      (smartAssignPatient db f pid prof date aid).1.assignments =
        db.assignments ++
          [{ id := db.nextId, patient_id := pid, professional_id := prof,
             assigned_by_id := aid, assignment_reason := none,
             scheduled_visit_date := some date,
             scheduled_visit_time := (calculateAvailableTimeSlots db prof date).suggestedTime,
             status := "active".data }] ∧
      (calculateAvailableTimeSlots db prof date).available = true) ∧
    ((smartAssignPatient db f pid prof date aid).2.success = false →
      (smartAssignPatient db f pid prof date aid).1.assignments = db.assignments) := by
  simp only [smartAssignPatient]
  split
  · split
    · split
      · simp
      · refine ⟨fun _ => ⟨?_, by assumption⟩, by simp⟩
        split <;> simp
    · simp
  · simp

lemma calcSlots_available_count (db : DB) (p : Nat) (date : Str) :
    (calculateAvailableTimeSlots db p date).available = true →
    activeCount db p date < 4 := by
  have hcount : (db.assignments.filter (isActiveFor p date)).length = activeCount db p date := by
    rw [activeCount, List.countP_eq_length_filter]
  simp only [calculateAvailableTimeSlots]
  split
  · simp only [List.filter_nil, List.length_nil, Nat.add_zero, hcount]
    split
    · simp
    · split
      · simp
      · intro
        omega
  · simp

lemma smartAssign_activeCount (db : DB) (f : Faults) (pid prof : Nat) (date : Str)
    (aid : Option Nat) (p : Nat) (d : Str) :
    activeCount (smartAssignPatient db f pid prof date aid).1 p d =
      activeCount db p d +
        (if (smartAssignPatient db f pid prof date aid).2.success = true ∧ prof = p ∧ date = d
          then 1 else 0) := by
  by_cases hs : (smartAssignPatient db f pid prof date aid).2.success = true
  · obtain ⟨hass, _⟩ := (smartAssignPatient_effect db f pid prof date aid).1 hs
    rw [activeCount, hass, List.countP_append]
    rw [activeCount]
    by_cases hp : prof = p
    · by_cases hd : date = d
      · subst hp hd
        simp [hs, List.countP_cons, isActiveFor]
      · simp [hs, hp, hd, List.countP_cons, isActiveFor]
    · simp [hs, hp, List.countP_cons, isActiveFor]
  · have h2 := (smartAssignPatient_effect db f pid prof date aid).2
      (by simpa using hs)
    rw [activeCount, h2, activeCount]
    simp [hs]

lemma smartAssign_capacity (db : DB) (f : Faults) (pid prof : Nat) (date : Str)
    (aid : Option Nat) (p : Nat) (d : Str)
    (h : activeCount db p d ≤ 4) :
    activeCount (smartAssignPatient db f pid prof date aid).1 p d ≤ 4 := by
  rw [smartAssign_activeCount]
  split
  · rename_i hcond
    obtain ⟨hs, hp, hd⟩ := hcond
    subst hp hd
    have hlt := calcSlots_available_count db prof date
      ((smartAssignPatient_effect db f pid prof date aid).1 hs).2
    omega
  · omega

lemma bulkLoop_activeCount (aid : Option Nat) (p : Nat) (d : Str) :
    ∀ (items : List BulkItem) (db : DB) (mem : List MemAssign),
    activeCount (bulkLoop aid db items mem).1 p d =
      activeCount db p d +
        ((bulkLoop aid db items mem).2.filter
          (fun r => r.success && r.professional_id == p && r.date == d)).length
  | [], db, mem => by simp [bulkLoop]
  | item :: rest, db, mem => by
    simp only [bulkLoop]
    rw [bulkLoop_activeCount aid p d rest]
    rw [smartAssign_activeCount]
    rw [List.filter_cons]
    rcases eq_or_ne item.professional_id p with hp | hp
    · rcases eq_or_ne item.date d with hd | hd
      · subst hp
        subst hd
        by_cases hs : (smartAssignPatient db item.faults item.patient_id
            item.professional_id item.date aid).2.success = true
        · simp [hs]
          omega
        · simp [hs]
      · simp [hd]
    · simp [hp]

lemma bulkLoop_capacity (aid : Option Nat) (p : Nat) (d : Str) :
    ∀ (items : List BulkItem) (db : DB) (mem : List MemAssign),
    activeCount db p d ≤ 4 →
    activeCount (bulkLoop aid db items mem).1 p d ≤ 4
  | [], db, mem => by simp [bulkLoop]
  | item :: rest, db, mem => by
    intro h
    simp only [bulkLoop]
    exact bulkLoop_capacity aid p d rest _ _
      (smartAssign_capacity db item.faults item.patient_id item.professional_id
        item.date aid p d h)

lemma countP_map_le {α : Type} (q : α → Bool) (g : α → α)
    (hg : ∀ a, q (g a) = true → q a = true) (l : List α) :
    List.countP q (l.map g) ≤ List.countP q l := by
  rw [List.countP_map]
  exact List.countP_mono_left (fun a _ h => hg a h)

lemma reassignMarkOld_count_le (db : DB) (f : ReassignFaults) (oldId : Nat)
    (p : Nat) (d : Str) :
    activeCount (reassignMarkOld db f oldId) p d ≤ activeCount db p d := by
  unfold reassignMarkOld
  split
  · exact le_refl _
  · rw [activeCount, activeCount]
    apply countP_map_le
    intro a ha
    by_cases hid : (a.id == oldId) = true
    · rw [if_pos hid] at ha
      simp [isActiveFor] at ha
    · rwa [if_neg hid] at ha

lemma reassign_activeCount_le (db : DB) (f : ReassignFaults)
    (oldId newProf : Nat) (reason : Option Str) (userId : Nat) (p : Nat) (d : Str) :
    activeCount (reassign db f oldId newProf reason userId).1 p d ≤
      activeCount db p d := by
  have h1 := reassignMarkOld_count_le db f oldId p d
  simp only [reassign]
  split
  · split
    · exact h1
    · calc activeCount { reassignMarkOld db f oldId with
            assignments := (reassignMarkOld db f oldId).assignments ++ [_],
            nextId := (reassignMarkOld db f oldId).nextId + 1 } p d
          = activeCount (reassignMarkOld db f oldId) p d := by
            rw [activeCount, activeCount]
            simp [List.countP_append, List.countP_cons, isActiveFor]
        _ ≤ activeCount db p d := h1
  · exact h1

lemma stepOp_capacity (db : DB) (op : Op) (p : Nat) (d : Str)
    (h : activeCount db p d ≤ 4) :
    activeCount (stepOp db op) p d ≤ 4 := by
  cases op with
  | assignOne f pid prof date aid =>
    exact smartAssign_capacity db f pid prof date aid p d h
  | assignBulk items aid =>
    simp only [stepOp, bulkAssignPatients]
    exact bulkLoop_capacity aid p d items db [] h
  | reassignOp f oldId newProf reason userId =>
    exact le_trans (reassign_activeCount_le db f oldId newProf reason userId p d) h

/-- Claim C1: from any store whose per-professional per-date active counts
are within the daily capacity 4, running any sequence of `assignOne`,
`assignBulk` and `reassign` operations (with any store-fault behaviour)
keeps every professional's active-assignment count for every date at
most 4. -/
theorem runOps_capacity (db : DB) (ops : List Op)
    (h : ∀ p d, activeCount db p d ≤ 4) :
    ∀ p d, activeCount (runOps db ops) p d ≤ 4 := by
  induction ops generalizing db with
  | nil => exact h
  | cons op rest ih =>
    intro p d
    exact ih (stepOp db op) (fun p d => stepOp_capacity db op p d (h p d)) p d

/-- Claim C2 as amended: `bulkAssignPatients` passes no in-batch context
(the accumulated list is dead), yet after the batch the store's active
count for any professional/date equals the initial count plus the number of
successful batch items for that pair — each success is persisted before the
next item's store query, so later items see earlier ones' load through the
store, and capacity is still respected within the batch. -/
theorem bulkAssignPatients_counts (db : DB) (items : List BulkItem)
    (aid : Option Nat) (p : Nat) (d : Str) (h : activeCount db p d ≤ 4) :
    activeCount (bulkAssignPatients db items aid).1 p d =
      activeCount db p d +
        ((bulkAssignPatients db items aid).2.results.filter
          (fun r => r.success && r.professional_id == p && r.date == d)).length ∧
    activeCount (bulkAssignPatients db items aid).1 p d ≤ 4 :=
  ⟨bulkLoop_activeCount aid p d items db [], bulkLoop_capacity aid p d items db [] h⟩

/-- Claim C4 as amended: a step-3 assignment-insert failure surfaces as a
failure result, but a step-4 schedule-entry insert failure is not checked:
the returned result is identical with and without the schedule fault (so it
can be a success result), and the schedule entry is simply missing. -/
theorem smartAssignPatient_storeFailures (db : DB) (f : Faults) (pid prof : Nat)
    (date : Str) (aid : Option Nat) :
    (f.assignInsertError = true →
      (smartAssignPatient db f pid prof date aid).2.success = false) ∧
    ((smartAssignPatient db f pid prof date aid).2 =
      (smartAssignPatient db { assignInsertError := f.assignInsertError,
                               scheduleInsertError := false } pid prof date aid).2) ∧
    (f.scheduleInsertError = true →
      (smartAssignPatient db f pid prof date aid).1.schedules = db.schedules) := by
  rcases f with ⟨fa, fs⟩
  refine ⟨?_, ?_, ?_⟩
  · intro hf
    subst hf
    simp only [smartAssignPatient]
    split
    · split
      · simp
      · simp
    · simp
  · simp only [smartAssignPatient]
    split
    · split
      · cases fa <;> rfl
      · rfl
    · rfl
  · intro hf
    subst hf
    simp only [smartAssignPatient]
    split
    · split
      · cases fa <;> simp
      · rfl
    · rfl

lemma calcSlots_available_fits (db : DB) (p : Nat) (date : Str) (ex : List MemAssign)
    (wh : WorkingHoursRow)
    (hwh : db.workingHours.filter
      (fun r => r.professional_id == p && r.weekday == jsDayOfWeek date) = [wh])
    (h : (calculateAvailableTimeSlots db p date ex).available = true) :
    ∃ c, (calculateAvailableTimeSlots db p date ex).suggestedTime =
        some (minutesToHHMM (parseTimeMins wh.start_time + c * 120)) ∧
      parseTimeMins wh.start_time + c * 120 + 60 ≤ parseTimeMins wh.end_time := by
  simp only [calculateAvailableTimeSlots] at h ⊢
  rw [hwh] at h ⊢
  dsimp only at h ⊢
  by_cases hcap : 4 ≤ (db.assignments.filter (isActiveFor p date)).length +
      (ex.filter (fun a => a.professional_id == p && a.scheduled_visit_date == date)).length
  · rw [if_pos hcap] at h
    simp at h
  · rw [if_neg hcap] at h ⊢
    by_cases hslot : parseTimeMins wh.end_time <
        parseTimeMins wh.start_time +
          ((db.assignments.filter (isActiveFor p date)).length +
            (ex.filter (fun a => a.professional_id == p &&
              a.scheduled_visit_date == date)).length) * 120 + 60
    · rw [if_pos hslot] at h
      simp at h
    · rw [if_neg hslot] at h ⊢
      exact ⟨_, rfl, by omega⟩

lemma smartAssign_success_slots (db : DB) (f : Faults) (pid prof : Nat) (date : Str)
    (aid : Option Nat)
    (hs : (smartAssignPatient db f pid prof date aid).2.success = true) :
    (calculateAvailableTimeSlots db prof date).available = true ∧
    (smartAssignPatient db f pid prof date aid).2.suggestedTime =
      (calculateAvailableTimeSlots db prof date).suggestedTime := by
  revert hs
  simp only [smartAssignPatient]
  split
  · split
    · split
      · simp
      · intro
        constructor
        · assumption
        · rfl
    · simp
  · simp

/-- Claim C3 as amended: every assignment committed through `assignOne`
has a start time of the form `workingHoursStart + c * 120` with
start + **60 minutes** (the fixed check, not the resolved visit duration)
within the weekday's working-hours end.  With a resolved duration above 60
the schedule entry can end past the working-hours end (see the
counterexample). -/
theorem smartAssignPatient_withinHours (db : DB) (f : Faults) (pid prof : Nat)
    (date : Str) (aid : Option Nat) (wh : WorkingHoursRow)
    (hwh : db.workingHours.filter
      (fun r => r.professional_id == prof && r.weekday == jsDayOfWeek date) = [wh])
    (hs : (smartAssignPatient db f pid prof date aid).2.success = true) :
    ∃ c, (smartAssignPatient db f pid prof date aid).2.suggestedTime =
        some (minutesToHHMM (parseTimeMins wh.start_time + c * 120)) ∧
      parseTimeMins wh.start_time + c * 120 + 60 ≤ parseTimeMins wh.end_time := by
  obtain ⟨hav, hsug⟩ := smartAssign_success_slots db f pid prof date aid hs
  obtain ⟨c, h1, h2⟩ := calcSlots_available_fits db prof date [] wh hwh hav
  exact ⟨c, hsug.trans h1, h2⟩

lemma nearestSel_fold_lt (cur : LocationJS) (rem : List RoutePatient) (n : Nat) :
    ∀ (is : List Nat) (acc : Nat × Option ℝ), (∀ i ∈ is, i < n) → acc.1 < n →
    ((is.foldl (nearestStep cur rem) acc).1 < n)
  | [], acc, _, h2 => h2
  | j :: js, acc, h1, h2 => by
    simp only [List.foldl_cons]
    apply nearestSel_fold_lt cur rem n js
    · intro i hi
      exact h1 i (List.mem_cons_of_mem j hi)
    · unfold nearestStep
      dsimp only
      split
      · exact h1 j (List.mem_cons_self j js)
      · exact h2

lemma nearestSel_lt (cur : LocationJS) (rem : List RoutePatient) (h : rem ≠ []) :
    (nearestSel cur rem).1 < rem.length := by
  unfold nearestSel
  apply nearestSel_fold_lt
  · intro i hi
    exact List.mem_range.mp hi
  · exact List.length_pos.mpr h

lemma getD_cons_eraseIdx_perm {α : Type} [Inhabited α] :
    ∀ (l : List α) (i : Nat), i < l.length →
      List.Perm (l.getD i default :: l.eraseIdx i) l
  | [], i, h => absurd h (by simp)
  | a :: xs, 0, _ => by simp [List.Perm.refl]
  | a :: xs, i + 1, h => by
    have ih := getD_cons_eraseIdx_perm xs i (by simpa using h)
    simp only [List.getD_cons_succ, List.eraseIdx_cons_succ]
    exact (List.Perm.swap a (xs.getD i default) (xs.eraseIdx i)).trans (ih.cons a)

lemma optimizeLoopFuel_perm :
    ∀ (fuel : Nat) (rem : List RoutePatient) (cur : LocationJS),
      rem.length ≤ fuel → List.Perm (optimizeLoopFuel fuel rem cur) rem
  | 0, rem, cur, h => by
    have : rem = [] := List.length_eq_zero.mp (Nat.le_zero.mp h)
    subst this
    simp [optimizeLoopFuel]
  | fuel + 1, rem, cur, h => by
    rw [optimizeLoopFuel]
    by_cases he : rem.isEmpty
    · rw [if_pos he]
      rw [List.isEmpty_iff] at he
      subst he
      exact List.Perm.refl []
    · rw [if_neg he]
      have hne : rem ≠ [] := fun hh => he (by simp [hh])
      have hi := nearestSel_lt cur rem hne
      have hlen : (rem.eraseIdx (nearestSel cur rem).1).length ≤ fuel := by
        rw [List.length_eraseIdx, if_pos hi]
        omega
      exact ((optimizeLoopFuel_perm fuel _ _ hlen).cons _).trans
        (getD_cons_eraseIdx_perm rem (nearestSel cur rem).1 hi)

/-- Claim C9: `optimizeRouteByDistance` returns a permutation of its input
patient list — same length and exactly the same elements with the same
multiplicities. -/
theorem optimizeRouteByDistance_perm (ps : List RoutePatient)
    (startLocation : Option LocationJS) :
    List.Perm (optimizeRouteByDistance (some ps) startLocation) ps ∧
    (optimizeRouteByDistance (some ps) startLocation).length = ps.length := by
  have hp : List.Perm (optimizeRouteByDistance (some ps) startLocation) ps := by
    simp only [optimizeRouteByDistance]
    by_cases h0 : ps.length = 0
    · rw [if_pos h0]
      rw [List.length_eq_zero] at h0
      subst h0
      exact List.Perm.refl []
    · rw [if_neg h0]
      by_cases h1 : ps.length = 1
      · rw [if_pos h1]
      · rw [if_neg h1]
        exact optimizeLoopFuel_perm ps.length ps _ (le_refl _)
  exact ⟨hp, hp.length_eq⟩


/-- Claim C2 counterexample: on a store with two existing active
assignments and a three-item batch for the same professional and date, the
source's bulk assignment succeeds on items 1 and 2 and fails item 3, while
the claimed behaviour (counting the store's actives **plus** the
accumulated in-batch triples) would already refuse item 2 — the Slot
Calculator call for item `i` does not receive the in-batch triples. -/
theorem bulkAssignPatients_noContext_cex :
    (bulkAssignPatients dbBatch batchItems none).2.results.map (fun r => r.success) =
      [true, true, false] ∧
    (bulkAssignPatientsClaimed dbBatch batchItems none).2.results.map (fun r => r.success) =
      [true, false, false] := by decide

/-- Claim C3 counterexample: with working hours 08:00–09:00 and a patient
whose resolved visit duration is 90 minutes (explicit override),
`assignOne` still commits the assignment (the check is a fixed
start + 60 ≤ end) and writes a schedule entry ending 09:30 — past the
working-hours end 09:00. -/
theorem smartAssignPatient_overrunsHours_cex :
    (smartAssignPatient dbTight {} 1 2 dMon none).2.success = true ∧
    (smartAssignPatient dbTight {} 1 2 dMon none).1.schedules.map (fun r => r.end_time) =
      ["09:30".data] ∧
    dbTight.workingHours.map (fun w => w.end_time) = ["09:00".data] ∧
    parseTimeMins ("09:00".data) < parseTimeMins ("09:30".data) := by decide

/-- Claim C4 counterexample: when the step-4 schedule-entry insert fails,
`assignOne` still returns a success result and no schedule row exists —
the store error of the unchecked second write is silently dropped. -/
theorem smartAssignPatient_scheduleFailure_cex :
    (smartAssignPatient dbWide { scheduleInsertError := true } 1 2 dMon none).2.success = true ∧
    (smartAssignPatient dbWide { scheduleInsertError := true } 1 2 dMon none).1.schedules = [] := by
  decide

/-- Witness for claim C1 at a concrete store and operation sequence. -/
theorem runOps_capacity_witness :
    activeCount (runOps dbWide
      [ Op.assignOne {} 1 2 dMon none,
        Op.assignBulk [{ patient_id := 1, professional_id := 2, date := dMon }] none,
        Op.reassignOp {} 100 3 none 9 ]) 2 dMon ≤ 4 :=
  runOps_capacity dbWide
    [ Op.assignOne {} 1 2 dMon none,
      Op.assignBulk [{ patient_id := 1, professional_id := 2, date := dMon }] none,
      Op.reassignOp {} 100 3 none 9 ]
    (fun p d => by simp [activeCount, dbWide]) 2 dMon

/-- Witness for the amended claim C2 at the concrete batch store. -/
theorem bulkAssignPatients_counts_witness :
    activeCount (bulkAssignPatients dbBatch batchItems none).1 2 dMon =
      activeCount dbBatch 2 dMon +
        ((bulkAssignPatients dbBatch batchItems none).2.results.filter
          (fun r => r.success && r.professional_id == 2 && r.date == dMon)).length ∧
    activeCount (bulkAssignPatients dbBatch batchItems none).1 2 dMon ≤ 4 :=
  bulkAssignPatients_counts dbBatch batchItems none 2 dMon (by decide)

/-- Witness for the amended claim C3 at the concrete wide-hours store. -/
theorem smartAssignPatient_withinHours_witness :
    ∃ c, (smartAssignPatient dbWide {} 1 2 dMon none).2.suggestedTime =
        some (minutesToHHMM (parseTimeMins ("08:00".data) + c * 120)) ∧
      parseTimeMins ("08:00".data) + c * 120 + 60 ≤ parseTimeMins ("16:00".data) :=
  smartAssignPatient_withinHours dbWide {} 1 2 dMon none
    { professional_id := 2, weekday := 1, start_time := "08:00".data,
      end_time := "16:00".data }
    (by decide) (by decide)

/-- Witness for the amended claim C4 at the concrete wide-hours store. -/
theorem smartAssignPatient_storeFailures_witness :
    (smartAssignPatient dbWide { assignInsertError := true } 1 2 dMon none).2.success = false ∧
    (smartAssignPatient dbWide { scheduleInsertError := true } 1 2 dMon
      none).1.schedules = dbWide.schedules :=
  ⟨(smartAssignPatient_storeFailures dbWide { assignInsertError := true } 1 2 dMon none).1 rfl,
   (smartAssignPatient_storeFailures dbWide { scheduleInsertError := true } 1 2 dMon
      none).2.2 rfl⟩

/-- Witness for claim C5: professional 2, Monday 08:00–16:00, empty store —
the first slot is 08:00 with count 0 of capacity 4. -/
theorem calculateAvailableTimeSlots_cases_witness :
    calculateAvailableTimeSlots dbWide 2 dMon [] =
      { available := true, suggestedTime := some (minutesToHHMM 480),
        slots := [minutesToHHMM 480], patientCountOnDay := some 0, maxCapacity := some 4 } :=
  (((calculateAvailableTimeSlots_cases dbWide 2 dMon []).2
      { professional_id := 2, weekday := 1, start_time := "08:00".data,
        end_time := "16:00".data }
      (by decide)).2 (by decide)).2 (by decide)

/-- Witness for claim C6 at identical coordinates: zero distance, travel
time exactly the 5-minute buffer. -/
theorem calculateTravelTime_formula_witness :
    calculateDistance 0 0 0 0 = 0 ∧ calculateTravelTime 0 0 0 0 = 5 :=
  ⟨calculateDistance_self 0 0,
   (calculateTravelTime_formula 0 0 0 0).2.2 (calculateDistance_self 0 0)⟩

/-- Witness for the amended claim C7 at the concrete equator points. -/
theorem calculateTravelTime_mono_witness :
    calculateTravelTime 0 0 0 (1/1000) ≤ calculateTravelTime 0 0 0 (2/1000) :=
  calculateTravelTime_mono 0 0 0 (1/1000) 0 0 0 (2/1000) (le_of_lt dist_equator_lt)

/-- Witness for claim C8: `wound care` is served by a `Nursing Care`
specialization through the synonym table. -/
theorem checkSkillMatch_spec_witness :
    checkSkillMatch (some ("wound care".data))
      (some [{ specialization := "Nursing Care".data }]) = true :=
  ((checkSkillMatch_spec (some ("wound care".data))
      (some [{ specialization := "Nursing Care".data }])).2
    ("wound care".data) [{ specialization := "Nursing Care".data }] rfl rfl
    (by decide) (by decide)).mpr (by decide)

/-- Witness for claim C10 at the zone `Tuira`. -/
theorem getTravelTime_sameZone_default_witness :
    ("Tuira".data ∈ TRAVEL_TIME.map (fun e => e.1)) ∧
    getTravelTime (some ("Tuira".data)) (some ("Tuira".data)) none none = 20 :=
  ⟨by decide, (getTravelTime_sameZone_default ("Tuira".data) (by decide)).2⟩
